import Mathlib

/-!
Verification development for the `b2b-chat-emotion` backend (Python).

The Python modules under `backend/` are shallowly embedded below:
* `entity_extractor.py` — entity records, overlap resolution, value normalization;
* `context_manager.py`  — accumulated-entity evolution and reference resolution;
* `dialog_manager.py`   — slot-filling dialog flows and the dialog manager;
* `lambda_function.py`  — hybrid intent arbitration, topic-shift stage, corrections.

Python dicts are modelled as association lists (first binding wins on lookup,
keys are unique for dicts built by the code), mutable objects by explicit
state passing, `float` confidences by `ℚ`, and fallible lookups by `Option`.
All definitions are executable.
-/

namespace B2BChat

/-- A single-quote character, used to build string literals that contain
apostrophes. -/
def squote : String := (Char.ofNat 39).toString

/-- Python truthiness of a string (`bool(s)`): true iff non-empty. -/
def pyTruthyStr (s : String) : Bool := s ≠ ""

/-- Python truthiness of an optional string (`None` and `""` are falsy). -/
def pyTruthyOpt (o : Option String) : Bool :=
  match o with
  | some s => s ≠ ""
  | none => false

/-- First-binding association-list lookup, the model of `dict.get` for string
keys. -/
def dlookup {β : Type} (m : List (String × β)) (k : String) : Option β :=
  match m with
  | [] => none
  | (k', v) :: rest => if k' = k then some v else dlookup rest k

/-- `d[k] = v` on a dict: replace the first binding of `k`, else append
(Python dicts keep the original position of an existing key and append new
keys at the end). -/
def dset {β : Type} (m : List (String × β)) (k : String) (v : β) :
    List (String × β) :=
  match m with
  | [] => [(k, v)]
  | (k', v') :: rest =>
      if k' = k then (k', v) :: rest else (k', v') :: dset rest k v

/-- `del d[k]` on a dict: drop every binding of `k` (unique anyway). -/
def derase {β : Type} (m : List (String × β)) (k : String) :
    List (String × β) :=
  match m with
  | [] => []
  | (k', v) :: rest => if k' = k then derase rest k else (k', v) :: derase rest k

/-- `dict.update(other)`: set each binding of `other` in order. -/
def dupdate {β : Type} (m other : List (String × β)) : List (String × β) :=
  other.foldl (fun acc p => dset acc p.1 p.2) m

theorem dlookup_nil {β : Type} (k : String) :
    dlookup ([] : List (String × β)) k = none := rfl

theorem dlookup_cons {β : Type} (k k' : String) (v : β)
    (rest : List (String × β)) :
    dlookup ((k', v) :: rest) k = if k' = k then some v else dlookup rest k := rfl

theorem dlookup_dset_self {β : Type} (m : List (String × β)) (k : String)
    (v : β) : dlookup (dset m k v) k = some v := by
  induction m with
  | nil => simp [dset, dlookup]
  | cons p rest ih =>
      obtain ⟨k', v'⟩ := p
      by_cases h : k' = k
      · simp [dset, dlookup, h]
      · simp [dset, dlookup, h, ih]

theorem dlookup_dset_ne {β : Type} (m : List (String × β)) (k k' : String)
    (v : β) (h : k ≠ k') : dlookup (dset m k v) k' = dlookup m k' := by
  induction m with
  | nil => simp [dset, dlookup, h]
  | cons p rest ih =>
      obtain ⟨k1, v1⟩ := p
      by_cases h1 : k1 = k
      · subst h1
        simp [dset, dlookup, h]
      · simp [dset, dlookup, h1, ih]

theorem dlookup_derase_self {β : Type} (m : List (String × β)) (k : String) :
    dlookup (derase m k) k = none := by
  induction m with
  | nil => rfl
  | cons p rest ih =>
      obtain ⟨k1, v1⟩ := p
      by_cases h1 : k1 = k
      · simpa [derase, h1] using ih
      · simpa [derase, dlookup, h1] using ih

theorem dlookup_derase_ne {β : Type} (m : List (String × β)) (k k' : String)
    (h : k' ≠ k) : dlookup (derase m k) k' = dlookup m k' := by
  induction m with
  | nil => rfl
  | cons p rest ih =>
      obtain ⟨k1, v1⟩ := p
      by_cases h1 : k1 = k
      · subst h1
        simp [derase, dlookup, Ne.symm h, ih]
      · by_cases h2 : k1 = k'
        · simp [derase, dlookup, h1, h2, h]
        · simp [derase, dlookup, h1, h2, ih]

theorem dupdate_cons {β : Type} (m : List (String × β)) (p : String × β)
    (rest : List (String × β)) :
    dupdate m (p :: rest) = dupdate (dset m p.1 p.2) rest := rfl

theorem dlookup_dupdate_not_mem {β : Type} (m other : List (String × β))
    (k : String) (h : dlookup other k = none) :
    dlookup (dupdate m other) k = dlookup m k := by
  induction other generalizing m with
  | nil => rfl
  | cons p rest ih =>
      obtain ⟨k1, v1⟩ := p
      rw [dlookup_cons] at h
      by_cases h1 : k1 = k
      · simp [h1] at h
      · rw [dupdate_cons, ih _ (by simpa [h1] using h),
          dlookup_dset_ne _ _ _ _ h1]

theorem dlookup_eq_none_of_not_mem_keys {β : Type} (m : List (String × β))
    (k : String) (h : k ∉ m.map Prod.fst) : dlookup m k = none := by
  induction m with
  | nil => rfl
  | cons p rest ih =>
      obtain ⟨k1, v1⟩ := p
      simp only [List.map_cons, List.mem_cons] at h
      push_neg at h
      rw [dlookup_cons, if_neg (by simpa using (Ne.symm h.1)), ih h.2]

theorem dlookup_dupdate_mem {β : Type} (m other : List (String × β))
    (k : String) (v : β) (hnd : (other.map Prod.fst).Nodup)
    (h : dlookup other k = some v) :
    dlookup (dupdate m other) k = some v := by
  induction other generalizing m with
  | nil => simp [dlookup] at h
  | cons p rest ih =>
      obtain ⟨k1, v1⟩ := p
      simp only [List.map_cons, List.nodup_cons] at hnd
      rw [dlookup_cons] at h
      by_cases h1 : k1 = k
      · subst h1
        simp only [if_pos, Option.some.injEq] at h
        subst h
        rw [dupdate_cons,
          dlookup_dupdate_not_mem _ _ _
            (dlookup_eq_none_of_not_mem_keys _ _ hnd.1),
          dlookup_dset_self]
      · rw [if_neg h1] at h
        rw [dupdate_cons, ih _ hnd.2 h]

/-!
## `entity_extractor.py`: entities and `_resolve_overlaps`
-/

/-- `Entity` dataclass of `entity_extractor.py` (`end` is renamed `endPos`,
a Lean keyword; `confidence` is a Python float, modelled as `ℚ`). -/
structure Entity where
  type : String
  value : String
  originalText : String
  start : Nat
  endPos : Nat
  confidence : ℚ
deriving DecidableEq, Repr

/-- Character-span intersection test used by `_resolve_overlaps`
(`max(e1.start, e2.start) < min(e1.end, e2.end)`). -/
def spansOverlap (a b : Entity) : Prop :=
  max a.start b.start < min a.endPos b.endPos

instance (a b : Entity) : Decidable (spansOverlap a b) := by
  unfold spansOverlap; infer_instance

theorem spansOverlap_symm {a b : Entity} (h : spansOverlap a b) :
    spansOverlap b a := by
  unfold spansOverlap at *
  omega

/-- Span length `e.end - e.start` (both are match offsets, so `Nat`). -/
def spanLen (e : Entity) : Nat := e.endPos - e.start

/-- One iteration of the inner `for j` loop of `_resolve_overlaps`
(`entity_extractor.py` lines 429-448): `p` is the outer `(i, e1)`, `q` the
inner `(j, e2)`, `acc` the `to_remove` set so far (a list with set
semantics). -/
def rmStep (p q : Nat × Entity) (acc : List Nat) : List Nat :=
  if p.1 = q.1 then acc
  else if q.1 ∈ acc then acc
  else if spansOverlap p.2 q.2 then
    -- `len1`/`len2` of the source are `spanLen p.2`/`spanLen q.2`, inlined
    if spanLen p.2 > spanLen q.2 then q.1 :: acc
    else if spanLen q.2 > spanLen p.2 then p.1 :: acc
    else if p.2.confidence > q.2.confidence then q.1 :: acc
    else p.1 :: acc
  else acc

/-- The inner `for j` loop of `_resolve_overlaps` for a fixed outer pair. -/
def rmInner (pairs : List (Nat × Entity)) (acc : List Nat)
    (p : Nat × Entity) : List Nat :=
  pairs.foldl (fun acc2 q => rmStep p q acc2) acc

/-- The `to_remove` index set computed by the pairwise loop of
`_resolve_overlaps` (the earlier sorted greedy pass in the source computes a
local `result` that is discarded, and is therefore not modelled). -/
def toRemoveSet (es : List Entity) : List Nat :=
  es.enum.foldl (rmInner es.enum) []

/-- `EntityExtractor._resolve_overlaps`: keep the entities whose index did
not land in `to_remove`. -/
def resolve_overlaps (es : List Entity) : List Entity :=
  (es.enum.filter (fun p => p.1 ∉ toRemoveSet es)).map Prod.snd

/-- Appending an entity to its type's bucket, creating the bucket on first
use — one iteration of the regrouping loop at the end of `extract_all`. -/
def addGroup : List (String × List Entity) → Entity → List (String × List Entity)
  | [], e => [(e.type, [e])]
  | g :: rest, e =>
      if g.1 = e.type then (g.1, g.2 ++ [e]) :: rest else g :: addGroup rest e

/-- The final regrouping loop of `extract_all` (lines 222-227): group the
resolved entities by type, keeping order. -/
def regroupByType (es : List Entity) : List (String × List Entity) :=
  es.foldl addGroup []

/-- Model of `EntityExtractor.extract_all` (lines 214-229), parameterized by
the flattened list `raw` of entities produced by the pattern/product
extraction stages (regex matching itself is not embedded; the theorem below
holds for every such list): resolve overlaps globally, then regroup by
type. -/
def extract_all_resolved (raw : List Entity) : List (String × List Entity) :=
  regroupByType (resolve_overlaps raw)

/-- Membership across all buckets of a grouped entity map. -/
def inGroups (m : List (String × List Entity)) (e : Entity) : Prop :=
  ∃ g ∈ m, e ∈ g.2

instance (m : List (String × List Entity)) (e : Entity) :
    Decidable (inGroups m e) := by
  unfold inGroups; infer_instance

theorem rmStep_mem_preserved {p q : Nat × Entity} {acc : List Nat} {x : Nat}
    (h : x ∈ acc) : x ∈ rmStep p q acc := by
  unfold rmStep
  split_ifs <;> simp [h]

theorem rmInner_mem_preserved {pairs : List (Nat × Entity)} {acc : List Nat}
    {p : Nat × Entity} {x : Nat} (h : x ∈ acc) : x ∈ rmInner pairs acc p := by
  unfold rmInner
  induction pairs generalizing acc with
  | nil => simpa using h
  | cons q rest ih => exact ih (rmStep_mem_preserved h)

theorem rmStep_hits_pair {p q : Nat × Entity} (acc : List Nat)
    (hne : p.1 ≠ q.1) (hov : spansOverlap p.2 q.2) :
    p.1 ∈ rmStep p q acc ∨ q.1 ∈ rmStep p q acc := by
  unfold rmStep
  rw [if_neg hne]
  by_cases hmem : q.1 ∈ acc
  · rw [if_pos hmem]; exact Or.inr hmem
  · rw [if_neg hmem, if_pos hov]
    split_ifs <;> simp

theorem rmStep_hits_loser {p q : Nat × Entity} (acc : List Nat)
    (hne : p.1 ≠ q.1) (hov : spansOverlap p.2 q.2)
    (hlose : spanLen q.2 < spanLen p.2 ∨
      (spanLen q.2 = spanLen p.2 ∧ q.2.confidence < p.2.confidence)) :
    q.1 ∈ rmStep p q acc := by
  unfold rmStep
  rw [if_neg hne]
  by_cases hmem : q.1 ∈ acc
  · rw [if_pos hmem]; exact hmem
  · rw [if_neg hmem, if_pos hov]
    rcases hlose with hlt | ⟨heq, hconf⟩
    · rw [if_pos hlt]
      exact List.mem_cons_self _ _
    · rw [if_neg (by omega), if_neg (by omega), if_pos hconf]
      exact List.mem_cons_self _ _

theorem foldl_pres {α : Type} {f : List Nat → α → List Nat}
    (P : List Nat → Prop) (hmono : ∀ acc a, P acc → P (f acc a))
    (l : List α) : ∀ acc, P acc → P (l.foldl f acc) := by
  induction l with
  | nil => intro acc h; simpa using h
  | cons b t ih => intro acc h; exact ih _ (hmono _ _ h)

theorem foldl_reach {α : Type} {f : List Nat → α → List Nat}
    (P : List Nat → Prop) (hmono : ∀ acc a, P acc → P (f acc a))
    (a : α) (l : List α) (ha : a ∈ l) (hhit : ∀ acc, P (f acc a)) :
    ∀ acc, P (l.foldl f acc) := by
  induction l with
  | nil => cases ha
  | cons b t ih =>
      intro acc
      rcases List.mem_cons.1 ha with rfl | hmem
      · exact foldl_pres P hmono t _ (hhit acc)
      · exact ih hmem _

theorem toRemoveSet_covers {es : List Entity} {i j : Nat} {a b : Entity}
    (hi : es[i]? = some a) (hj : es[j]? = some b) (hij : i ≠ j)
    (hov : spansOverlap a b) :
    i ∈ toRemoveSet es ∨ j ∈ toRemoveSet es := by
  have hpi : (i, a) ∈ es.enum := List.mk_mem_enum_iff_getElem?.2 hi
  have hpj : (j, b) ∈ es.enum := List.mk_mem_enum_iff_getElem?.2 hj
  have hmono : ∀ (acc : List Nat) (q : Nat × Entity),
      (i ∈ acc ∨ j ∈ acc) → (i ∈ rmStep (i, a) q acc ∨ j ∈ rmStep (i, a) q acc) := by
    intro acc q h
    rcases h with h | h
    · exact Or.inl (rmStep_mem_preserved h)
    · exact Or.inr (rmStep_mem_preserved h)
  have hhit : ∀ acc : List Nat,
      i ∈ rmStep (i, a) (j, b) acc ∨ j ∈ rmStep (i, a) (j, b) acc :=
    fun acc => rmStep_hits_pair acc hij hov
  have hinner : ∀ acc : List Nat,
      i ∈ rmInner es.enum acc (i, a) ∨ j ∈ rmInner es.enum acc (i, a) := by
    intro acc
    exact foldl_reach (fun s => i ∈ s ∨ j ∈ s) hmono (j, b) es.enum hpj hhit acc
  have houtmono : ∀ (acc : List Nat) (p : Nat × Entity),
      (i ∈ acc ∨ j ∈ acc) → (i ∈ rmInner es.enum acc p ∨ j ∈ rmInner es.enum acc p) := by
    intro acc p h
    rcases h with h | h
    · exact Or.inl (rmInner_mem_preserved h)
    · exact Or.inr (rmInner_mem_preserved h)
  exact foldl_reach (fun s => i ∈ s ∨ j ∈ s) houtmono (i, a) es.enum hpi hinner []

theorem toRemoveSet_drops_loser {es : List Entity} {i j : Nat} {a b : Entity}
    (hi : es[i]? = some a) (hj : es[j]? = some b) (hij : i ≠ j)
    (hov : spansOverlap a b)
    (hlose : spanLen b < spanLen a ∨
      (spanLen b = spanLen a ∧ b.confidence < a.confidence)) :
    j ∈ toRemoveSet es := by
  have hpi : (i, a) ∈ es.enum := List.mk_mem_enum_iff_getElem?.2 hi
  have hpj : (j, b) ∈ es.enum := List.mk_mem_enum_iff_getElem?.2 hj
  have hmono : ∀ (acc : List Nat) (q : Nat × Entity),
      j ∈ acc → j ∈ rmStep (i, a) q acc :=
    fun acc q h => rmStep_mem_preserved h
  have hhit : ∀ acc : List Nat, j ∈ rmStep (i, a) (j, b) acc :=
    fun acc => rmStep_hits_loser acc hij hov hlose
  have hinner : ∀ acc : List Nat, j ∈ rmInner es.enum acc (i, a) :=
    fun acc => foldl_reach (fun s => j ∈ s) hmono (j, b) es.enum hpj hhit acc
  have houtmono : ∀ (acc : List Nat) (p : Nat × Entity),
      j ∈ acc → j ∈ rmInner es.enum acc p :=
    fun acc p h => rmInner_mem_preserved h
  exact foldl_reach (fun s => j ∈ s) houtmono (i, a) es.enum hpi hinner []

theorem mem_resolve_overlaps {es : List Entity} {e : Entity}
    (h : e ∈ resolve_overlaps es) :
    ∃ i, i ∉ toRemoveSet es ∧ es[i]? = some e := by
  unfold resolve_overlaps at h
  rcases List.mem_map.1 h with ⟨⟨i, e'⟩, hmem, hsnd⟩
  rcases List.mem_filter.1 hmem with ⟨henum, hdec⟩
  cases hsnd
  exact ⟨i, by simpa using hdec, List.mk_mem_enum_iff_getElem?.1 henum⟩

theorem resolve_overlaps_no_overlap {es : List Entity} {a b : Entity}
    (ha : a ∈ resolve_overlaps es) (hb : b ∈ resolve_overlaps es)
    (hne : a ≠ b) : ¬ spansOverlap a b := by
  intro hov
  rcases mem_resolve_overlaps ha with ⟨i, hiR, hi⟩
  rcases mem_resolve_overlaps hb with ⟨j, hjR, hj⟩
  have hij : i ≠ j := by
    intro h
    subst h
    rw [hi] at hj
    exact hne (Option.some.inj hj)
  rcases toRemoveSet_covers hi hj hij hov with h | h
  · exact hiR h
  · exact hjR h

theorem mem_addGroup {m : List (String × List Entity)} {e x : Entity} :
    inGroups (addGroup m e) x ↔ inGroups m x ∨ x = e := by
  induction m with
  | nil =>
      simp [addGroup, inGroups]
  | cons g rest ih =>
      by_cases h : g.1 = e.type
      · rw [show addGroup (g :: rest) e = (g.1, g.2 ++ [e]) :: rest by
          simp [addGroup, h]]
        constructor
        · rintro ⟨g', hg', hx⟩
          rcases List.mem_cons.1 hg' with rfl | hg'
          · rcases List.mem_append.1 hx with hx | hx
            · exact Or.inl ⟨g, List.mem_cons_self _ _, hx⟩
            · exact Or.inr (by simpa using hx)
          · exact Or.inl ⟨g', List.mem_cons_of_mem _ hg', hx⟩
        · rintro (⟨g', hg', hx⟩ | rfl)
          · rcases List.mem_cons.1 hg' with rfl | hg'
            · exact ⟨(g'.1, g'.2 ++ [e]), List.mem_cons_self _ _,
                List.mem_append.2 (Or.inl hx)⟩
            · exact ⟨g', List.mem_cons_of_mem _ hg', hx⟩
          · exact ⟨(g.1, g.2 ++ [x]), List.mem_cons_self _ _,
              List.mem_append.2 (Or.inr (by simp))⟩
      · rw [show addGroup (g :: rest) e = g :: addGroup rest e by
          simp [addGroup, h]]
        constructor
        · rintro ⟨g', hg', hx⟩
          rcases List.mem_cons.1 hg' with rfl | hg'
          · exact Or.inl ⟨g', List.mem_cons_self _ _, hx⟩
          · rcases (ih.1 ⟨g', hg', hx⟩) with ⟨g2, hg2, hx2⟩ | rfl
            · exact Or.inl ⟨g2, List.mem_cons_of_mem _ hg2, hx2⟩
            · exact Or.inr rfl
        · rintro (⟨g', hg', hx⟩ | rfl)
          · rcases List.mem_cons.1 hg' with rfl | hg'
            · exact ⟨g', List.mem_cons_self _ _, hx⟩
            · rcases ih.2 (Or.inl ⟨g', hg', hx⟩) with ⟨g2, hg2, hx2⟩
              exact ⟨g2, List.mem_cons_of_mem _ hg2, hx2⟩
          · rcases ih.2 (Or.inr rfl) with ⟨g2, hg2, hx2⟩
            exact ⟨g2, List.mem_cons_of_mem _ hg2, hx2⟩

theorem mem_regroupByType {es : List Entity} {x : Entity} :
    inGroups (regroupByType es) x ↔ x ∈ es := by
  suffices h : ∀ (l : List Entity) (m : List (String × List Entity)),
      inGroups (l.foldl addGroup m) x ↔ inGroups m x ∨ x ∈ l by
    have := h es []
    simpa [regroupByType, inGroups] using this
  intro l
  induction l with
  | nil => intro m; simp
  | cons e t ih =>
      intro m
      simp only [List.foldl_cons, ih, mem_addGroup, List.mem_cons]
      tauto

/-- Sample entities used to witness the overlap-resolution theorem. -/
def entWideCyl : Entity :=
  ⟨"product", "hydraulic cylinder", "hydraulic cylinder", 0, 18, 1⟩

def entNarrowCyl : Entity :=
  ⟨"product", "pneumatic cylinder", "cylinder", 10, 18, 0⟩

def entFarQty : Entity :=
  ⟨"quantity", "500", "500 units", 30, 39, 1⟩

/-- C1: for every input (modelled by the flattened raw extraction list), no
two distinct entities in the output of `extract_all` have intersecting
character spans; overlap resolution is global across all entity types and,
for every intersecting pair, drops the entity with the strictly shorter
span, and on equal span lengths the one with strictly lower confidence. -/
theorem extract_all_no_overlaps_and_drops_loser :
    (∀ (raw : List Entity) (a b : Entity),
        inGroups (extract_all_resolved raw) a →
        inGroups (extract_all_resolved raw) b →
        a ≠ b → ¬ spansOverlap a b) ∧
    (∀ (raw : List Entity) (i j : Nat) (a b : Entity),
        raw[i]? = some a → raw[j]? = some b → i ≠ j → spansOverlap a b →
        (spanLen b < spanLen a ∨
          (spanLen b = spanLen a ∧ b.confidence < a.confidence)) →
        j ∈ toRemoveSet raw) := by
  constructor
  · intro raw a b ha hb hne
    have ha' : a ∈ resolve_overlaps raw := mem_regroupByType.1 ha
    have hb' : b ∈ resolve_overlaps raw := mem_regroupByType.1 hb
    exact resolve_overlaps_no_overlap ha' hb' hne
  · intro raw i j a b hi hj hij hov hlose
    exact toRemoveSet_drops_loser hi hj hij hov hlose

/-- Witness for the overlap-resolution theorem at concrete entities: the
two "cylinder" product entities overlap on [10,18), so the globally
resolved output keeps the far-away quantity entity disjoint from the wide
product entity, and the shorter overlap loser (index 1) is dropped. -/
theorem extract_all_no_overlaps_and_drops_loser_witness :
    (¬ spansOverlap entWideCyl entFarQty) ∧
    1 ∈ toRemoveSet [entWideCyl, entNarrowCyl] := by
  constructor
  · exact extract_all_no_overlaps_and_drops_loser.1
      [entWideCyl, entFarQty] entWideCyl entFarQty
      (by decide) (by decide) (by decide)
  · exact extract_all_no_overlaps_and_drops_loser.2
      [entWideCyl, entNarrowCyl] 0 1 entWideCyl entNarrowCyl
      rfl rfl (by decide) (by decide) (by decide)

/-!
## Python string primitives

Character-list implementations of the Python `str` operations the backend
uses (`strip`, `lower`, `upper`, `replace`, `in`, `split`, `endswith`,
`title`).  ASCII semantics, which covers every string the claims touch.
Recursions are structural or fuelled so that every definition reduces in
the kernel.
-/

/-- Python `needle in hay` on character lists (empty needle is `True`). -/
def listInfixB (p : List Char) : List Char → Bool
  | [] => p.isEmpty
  | c :: rest => p.isPrefixOf (c :: rest) || listInfixB p rest

/-- Python `needle in hay` on strings. -/
def pyInStr (needle hay : String) : Bool := listInfixB needle.data hay.data

/-- Python `s.strip()` (ASCII whitespace). -/
def pyStrip (s : String) : String :=
  String.mk (((s.data.dropWhile Char.isWhitespace).reverse.dropWhile
    Char.isWhitespace).reverse)

/-- Python `s.lower()` (ASCII). -/
def pyLower (s : String) : String := String.mk (s.data.map Char.toLower)

/-- Python `s.upper()` (ASCII). -/
def pyUpper (s : String) : String := String.mk (s.data.map Char.toUpper)

/-- One fuelled pass of `str.replace`: replace non-overlapping occurrences
of `old` left to right (`old` is never empty at the call sites). -/
def replFuel (old new : List Char) : Nat → List Char → List Char
  | 0, s => s
  | _ + 1, [] => []
  | fuel + 1, c :: rest =>
      if !old.isEmpty && old.isPrefixOf (c :: rest) then
        new ++ replFuel old new fuel ((c :: rest).drop old.length)
      else c :: replFuel old new fuel rest

/-- Python `s.replace(old, new)`. -/
def pyReplace (s old new : String) : String :=
  String.mk (replFuel old.data new.data s.data.length s.data)

/-- Python `s.split(sep)` for a single separator character. -/
def splitAtChar (sep : Char) : List Char → List (List Char)
  | [] => [[]]
  | c :: rest =>
      match splitAtChar sep rest, c == sep with
      | r, true => [] :: r
      | [], false => [[c]]
      | h :: t, false => (c :: h) :: t

/-- Python `s.endswith(suffix)`. -/
def pyEndsWith (s suffix : String) : Bool := suffix.data.isSuffixOf s.data

/-- Python `s.title()`: a letter is uppercased when the previous character
is not a letter, lowercased otherwise. -/
def titleChars : Bool → List Char → List Char
  | _, [] => []
  | prevAlpha, c :: rest =>
      if c.isAlpha then
        (if prevAlpha then c.toLower else c.toUpper) :: titleChars true rest
      else c :: titleChars false rest

/-- Python `s.title()`. -/
def pyTitle (s : String) : String := String.mk (titleChars false s.data)

/-- Decimal value of a digit list. -/
def digitsVal (s : List Char) : Nat :=
  s.foldl (fun n c => 10 * n + (c.toNat - 48)) 0

/-- Decimal value of a digit string. -/
def digitsValStr (s : String) : Nat := digitsVal s.data

/-!
## `EntityExtractor._normalize_value`
-/

/-- Model of Python `float()` on the digit-and-dot strings that reach it
from quantity normalization (the captured groups contain only digits, `,`,
`.`, `k`, and commas/spaces/`k` are removed first).  The value is returned
as an exact numerator/denominator pair; IEEE-754 rounding of the Python
float is thus modelled exactly, which agrees with Python for every value
appearing in the claims.  Any other shape raises `ValueError`, i.e. `none`. -/
def pyFloatParts? (s : String) : Option (Nat × Nat) :=
  match splitAtChar (Char.ofNat 46) s.data with
  | [ip] => if !ip.isEmpty && ip.all Char.isDigit then some (digitsVal ip, 1)
            else none
  | [ip, fp] =>
      if ip.all Char.isDigit && fp.all Char.isDigit &&
          !(ip.isEmpty && fp.isEmpty) then
        some (digitsVal ip * 10 ^ fp.length + digitsVal fp, 10 ^ fp.length)
      else none
  | _ => none

/-- `EntityExtractor._normalize_value` (quantity branch): strip, lowercase,
remove commas and spaces, apply the ×1000 multiplier for a trailing `k`,
parse as float and truncate (`int(val * multiplier)`; values are
non-negative, so truncation is floor, i.e. `Nat` division). -/
def normalize_quantity (value : String) : String :=
  let v := pyStrip value
  let clean := pyReplace (pyReplace (pyLower v) "," "") " " ""
  let mult : Nat := if pyEndsWith clean "k" then 1000 else 1
  let clean2 := if pyEndsWith clean "k" then
      String.mk clean.data.dropLast else clean
  match pyFloatParts? clean2 with
  | some (n, d) => toString ((n * mult) / d)
  | none => v

/-- `EntityExtractor._normalize_value`: per-type normalization of captured
entity values (`value = value.strip()` happens first for all branches). -/
def normalize_value (entityType value : String) : String :=
  let v := pyStrip value
  if entityType = "quantity" then normalize_quantity value
  else if entityType = "price" then
    pyStrip (pyReplace (pyReplace v "$" "") "," "")
  else if entityType = "order_number" then pyReplace (pyUpper v) " " ""
  else if entityType = "email" then pyLower v
  else if entityType = "phone" then
    String.mk (v.data.filter (fun c => c.isDigit || c = '+'))
  else if entityType = "percentage" then
    pyStrip (pyReplace (pyReplace v "%" "") "percent" "")
  else if entityType = "rfq_id" then
    let norm := pyReplace (pyUpper v) " " ""
    if pyInStr "REQ" norm && !(pyInStr "-" norm) then
      pyReplace norm "REQ" "REQ-"
    else norm
  else v

/-- C5: quantity normalization strips commas and applies a ×1000 multiplier
for a trailing `k`, supporting fractional inputs: the captured values of
"20k pieces", "1.5k" and "500 units" normalize to "20000", "1500" and
"500"; commas are stripped ("1,000" → "1000", also composed with the `k`
multiplier), and uppercase `K` works too. -/
theorem quantity_normalization_examples :
    normalize_value "quantity" "20k" = "20000" ∧
    normalize_value "quantity" "1.5k" = "1500" ∧
    normalize_value "quantity" "500" = "500" ∧
    normalize_value "quantity" "1,000" = "1000" ∧
    normalize_value "quantity" "1,000k" = "1000000" ∧
    normalize_value "quantity" "20K" = "20000" := by
  refine ⟨?_, ?_, ?_, ?_, ?_, ?_⟩ <;> decide

/-!
## `context_manager.py`: accumulated entities and reference resolution
-/

/-- Word character for `\b` boundaries (`re` word chars; ASCII scope). -/
def isWordChar (c : Char) : Bool := c.isAlphanum || c = '_'

/-- `\b` holds before the match when the previous character (if any) is not
a word character (all referring phrases start with a word character). -/
def boundaryBefore : Option Char → Bool
  | none => true
  | some c => !isWordChar c

/-- `\b` holds after the match when the next character (if any) is not a
word character (all referring phrases end with a word character). -/
def boundaryAfter : List Char → Bool
  | [] => true
  | c :: _ => !isWordChar c

/-- Does `\b p \b` match somewhere in `s`?  `p` is the lowercased phrase
and `s` lowercased text, modelling `re.search` on `text_lower`. -/
def wordOccursAux (p : List Char) (prev : Option Char) : List Char → Bool
  | [] => false
  | c :: rest =>
      (boundaryBefore prev && p.isPrefixOf (c :: rest) &&
        boundaryAfter ((c :: rest).drop p.length))
      || wordOccursAux p (some c) rest

/-- Whole-word occurrence of phrase `p` in string `s`. -/
def wordOccurs (p s : String) : Bool := wordOccursAux p.data none s.data

/-- Case-insensitive prefix comparison: lowercased pattern `p` against the
text. -/
def ciPrefixEq : List Char → List Char → Bool
  | [], _ => true
  | _ :: _, [] => false
  | p :: ps, c :: cs => (c.toLower == p) && ciPrefixEq ps cs

/-- `re.sub(r'\b ref \b', repl, text, flags=re.IGNORECASE)`: replace every
non-overlapping whole-word occurrence left to right; the boundary after a
match is judged on the original text. -/
def subWordFuel (p repl : List Char) : Option Char → Nat → List Char → List Char
  | _, 0, s => s
  | _, _ + 1, [] => []
  | prev, fuel + 1, c :: rest =>
      if boundaryBefore prev && ciPrefixEq p (c :: rest) &&
          boundaryAfter ((c :: rest).drop p.length) then
        repl ++ subWordFuel p repl (some (((c :: rest).take p.length).getLastD c))
          fuel ((c :: rest).drop p.length)
      else c :: subWordFuel p repl (some c) fuel rest

/-- Whole-word case-insensitive substitution on strings. -/
def pySubWordCI (text ref repl : String) : String :=
  String.mk (subWordFuel ref.data repl.data none text.data.length text.data)

/-- The `reference_words` table of `ConversationContext.resolve_reference`,
in its Python insertion order. -/
def referenceWords : List (String × List String) :=
  [("it", ["product", "item"]),
   ("that", ["product", "item"]),
   ("this", ["product", "item"]),
   ("the product", ["product"]),
   ("the item", ["product", "item"]),
   ("them", ["product"]),
   ("those", ["product"]),
   ("the order", ["order_number"]),
   ("my order", ["order_number"])]

/-- First candidate entity type present in the accumulated entities, with
its value (the inner `for entity_type in entity_types` loop). -/
def firstPresent (entities : List (String × String)) :
    List String → Option String
  | [] => none
  | t :: ts =>
      match dlookup entities t with
      | some v => some v
      | none => firstPresent entities ts

/-- One iteration of the `for ref_word, entity_types` loop of
`resolve_reference`, carrying `(resolved_text, text_lower)`. -/
def resolveRefStep (entities : List (String × String))
    (st : String × String) (rw : String × List String) : String × String :=
  if wordOccurs rw.1 st.2 then
    match firstPresent entities rw.2 with
    | none => st
    | some v =>
        if pyInStr (pyLower v) st.2 then st
        else
          let r := pySubWordCI st.1 rw.1 v
          (r, pyLower r)
  else st

/-- `ConversationContext.resolve_reference` (entity state passed
explicitly). -/
def resolve_reference (entities : List (String × String)) (text : String) :
    String :=
  (referenceWords.foldl (resolveRefStep entities) (text, pyLower text)).1

/-- The example input of the spec, "What's the MOQ for it?". -/
def moqQuestion : String := "What" ++ squote ++ "s the MOQ for it?"

/-- C6: `resolve_reference` substitutes whole-word referring phrases with
the first accumulated entity value among the phrase's candidate types
(skipping when the value already occurs in the evolving output): with
accumulated product "servo motor", resolving "What's the MOQ for it?"
yields "What's the MOQ for servo motor?", which contains "servo motor" and
no longer contains "it" as a standalone word. -/
theorem resolve_reference_servo_motor :
    resolve_reference [("product", "servo motor")] moqQuestion
      = "What" ++ squote ++ "s the MOQ for servo motor?" ∧
    pyInStr "servo motor"
      (resolve_reference [("product", "servo motor")] moqQuestion) = true ∧
    wordOccurs "it"
      (pyLower (resolve_reference [("product", "servo motor")] moqQuestion))
      = false := by
  refine ⟨?_, ?_, ?_⟩ <;> decide

/-- The product-scoped keys cleared by `add_turn` on a topic shift
(`attributes_to_clear`). -/
def productScopedKeys : List String :=
  ["quantity", "price", "specs", "date", "order_number"]

/-- The accumulated-entity evolution of `ConversationContext.add_turn`
(`context_manager.py` lines 59-91): on a product topic shift, delete the
product-scoped keys, then merge the incoming entities
(`self.entities.update(entities)`).  History/timestamp bookkeeping does not
touch `self.entities` and is not modelled; `entities=None` is modelled by
the empty list, which is equally falsy. -/
def add_turn_entities (acc incoming : List (String × String)) :
    List (String × String) :=
  let acc1 :=
    match incoming.isEmpty, dlookup incoming "product" with
    | false, some newP =>
        match dlookup acc "product" with
        | some oldP =>
            if oldP ≠ "" ∧ pyLower newP ≠ pyLower oldP then
              productScopedKeys.foldl derase acc
            else acc
        | none => acc
    | _, _ => acc
  if incoming.isEmpty then acc1 else dupdate acc1 incoming

theorem dlookup_foldl_derase (ks : List String) (acc : List (String × String))
    (k : String) :
    dlookup (ks.foldl derase acc) k
      = if k ∈ ks then none else dlookup acc k := by
  induction ks generalizing acc with
  | nil => simp
  | cons k1 ks ih =>
      rw [List.foldl_cons, ih]
      by_cases h1 : k = k1
      · subst h1
        simp [dlookup_derase_self]
      · by_cases h2 : k ∈ ks
        · simp [h2]
        · simp [h1, h2, Ne.symm h1, dlookup_derase_ne _ _ _ h1]

/-- C7: when `add_turn` receives entities whose product differs
case-insensitively from the accumulated product, it deletes exactly the
product-scoped keys quantity, price, specs, date, order_number from the
accumulated entities, leaves every other accumulated key unchanged, and
then merges the incoming entities, so the accumulated product becomes the
new product. -/
theorem add_turn_topic_shift (acc incoming : List (String × String))
    (newP oldP : String)
    (hinc : incoming ≠ [])
    (hnew : dlookup incoming "product" = some newP)
    (hold : dlookup acc "product" = some oldP)
    (holdT : oldP ≠ "")
    (hdiff : pyLower newP ≠ pyLower oldP) :
    add_turn_entities acc incoming
      = dupdate (productScopedKeys.foldl derase acc) incoming ∧
    (∀ k, k ∉ productScopedKeys → dlookup incoming k = none →
      dlookup (add_turn_entities acc incoming) k = dlookup acc k) ∧
    (∀ k, k ∈ productScopedKeys → dlookup incoming k = none →
      dlookup (add_turn_entities acc incoming) k = none) ∧
    ((incoming.map Prod.fst).Nodup →
      dlookup (add_turn_entities acc incoming) "product" = some newP) := by
  have hempty : incoming.isEmpty = false := by
    cases incoming with
    | nil => exact absurd rfl hinc
    | cons p t => rfl
  have heq : add_turn_entities acc incoming
      = dupdate (productScopedKeys.foldl derase acc) incoming := by
    unfold add_turn_entities
    rw [hempty, hnew, hold]
    dsimp only
    simp only [Bool.false_eq_true, if_false]
    rw [if_pos (And.intro holdT hdiff)]
  refine ⟨heq, ?_, ?_, ?_⟩
  · intro k hk hkinc
    rw [heq, dlookup_dupdate_not_mem _ _ _ hkinc, dlookup_foldl_derase,
      if_neg hk]
  · intro k hk hkinc
    rw [heq, dlookup_dupdate_not_mem _ _ _ hkinc, dlookup_foldl_derase,
      if_pos hk]
  · intro hnd
    rw [heq, dlookup_dupdate_mem _ _ _ _ hnd hnew]

/-- Witness for the `add_turn` topic-shift theorem: after accumulating
product="bearing", quantity="500", email="a@b.co", a turn introducing
product="actuator" leaves product="actuator", no quantity, and the email
untouched. -/
theorem add_turn_topic_shift_witness :
    dlookup (add_turn_entities
        [("product", "bearing"), ("quantity", "500"), ("email", "a@b.co")]
        [("product", "actuator")]) "quantity" = none ∧
    dlookup (add_turn_entities
        [("product", "bearing"), ("quantity", "500"), ("email", "a@b.co")]
        [("product", "actuator")]) "product" = some "actuator" ∧
    dlookup (add_turn_entities
        [("product", "bearing"), ("quantity", "500"), ("email", "a@b.co")]
        [("product", "actuator")]) "email" = some "a@b.co" := by
  have h := add_turn_topic_shift
    [("product", "bearing"), ("quantity", "500"), ("email", "a@b.co")]
    [("product", "actuator")] "actuator" "bearing"
    (by decide) (by decide) (by decide) (by decide) (by decide)
  exact ⟨h.2.2.1 "quantity" (by decide) (by decide),
    h.2.2.2 (by decide),
    h.2.1 "email" (by decide) (by decide)⟩

/-!
## `dialog_manager.py`: slots, flows and the dialog manager

Callables (`validator`, `normalizer`) are function fields; `None` is
`Option.none`.  `started_at` only records a timestamp and is modelled as a
`Bool` presence flag.  All mutation is explicit state passing; the manager
state is the pair of the `flows` registry and the `active_flows` map, both
insertion-ordered dicts.
-/

/-- `DialogStatus` enum. -/
inductive DialogStatus where
  | notStarted
  | inProgress
  | awaitingConfirmation
  | completed
  | cancelled
deriving DecidableEq, Repr

/-- Default `Slot.error_message`. -/
def defaultSlotError : String :=
  "I didn" ++ squote ++ "t understand that. Could you try again?"

/-- `Slot` dataclass. -/
structure Slot where
  name : String
  prompt : String
  required : Bool := true
  value : Option String := none
  entityType : Option String := none
  validator : Option (String → Bool) := none
  normalizer : Option (String → String) := none
  errorMessage : String := defaultSlotError
  repromptMessage : Option String := none
  maxAttempts : Nat := 3
  attempts : Nat := 0

/-- `Slot.validate`: custom validator, or Python
`bool(value and value.strip())`. -/
def Slot.validate (s : Slot) (v : String) : Bool :=
  match s.validator with
  | some f => f v
  | none => pyTruthyStr v && pyTruthyStr (pyStrip v)

/-- `Slot.normalize`: custom normalizer, or `value.strip()`. -/
def Slot.normalize (s : Slot) (v : String) : String :=
  match s.normalizer with
  | some f => f v
  | none => pyStrip v

/-- `Slot.reset`. -/
def Slot.reset (s : Slot) : Slot := { s with value := none, attempts := 0 }

/-- `DialogFlow` dataclass. -/
structure DialogFlow where
  name : String
  triggerIntents : List String
  slots : List Slot
  completionMessage : Option String
  confirmationPrompt : Option String := none
  cancelIntents : List String := ["cancel", "stop", "nevermind"]
  status : DialogStatus := .notStarted
  started : Bool := false

/-- `DialogFlow.get_next_empty_slot`: first required unfilled slot, else
first optional unfilled slot. -/
def DialogFlow.getNextEmptySlot (f : DialogFlow) : Option Slot :=
  match f.slots.find? (fun s => s.required && s.value.isNone) with
  | some s => some s
  | none => f.slots.find? (fun s => !s.required && s.value.isNone)

/-- `DialogFlow.get_next_required_empty_slot`. -/
def DialogFlow.getNextRequiredEmptySlot (f : DialogFlow) : Option Slot :=
  f.slots.find? (fun s => s.required && s.value.isNone)

/-- `DialogFlow.fill_slot` body on the slot list: find the slot by name,
bump `attempts`, normalize then validate, store on success.  Returns the
success flag and the updated list. -/
def fillSlotAux : List Slot → String → String → Bool × List Slot
  | [], _, _ => (false, [])
  | s :: rest, n, v =>
      if s.name = n then
        let s1 := { s with attempts := s.attempts + 1 }
        let nv := s1.normalize v
        if s1.validate nv then (true, { s1 with value := some nv } :: rest)
        else (false, s1 :: rest)
      else
        let r := fillSlotAux rest n v
        (r.1, s :: r.2)

/-- `DialogFlow.fill_slot`. -/
def DialogFlow.fillSlot (f : DialogFlow) (n v : String) : Bool × DialogFlow :=
  let r := fillSlotAux f.slots n v
  (r.1, { f with slots := r.2 })

/-- Set a slot's value directly by name (used for the optional-slot skip,
`current_slot.value = "N/A"`). -/
def DialogFlow.setSlotValue (f : DialogFlow) (n v : String) : DialogFlow :=
  { f with slots := f.slots.map (fun s =>
      if s.name = n then { s with value := some v } else s) }

/-- `DialogFlow.get_filled_slots`. -/
def DialogFlow.getFilledSlots (f : DialogFlow) : List (String × String) :=
  f.slots.filterMap (fun s => s.value.map (fun v => (s.name, v)))

/-- `DialogFlow.get_slot`. -/
def DialogFlow.getSlot (f : DialogFlow) (n : String) : Option Slot :=
  f.slots.find? (fun s => s.name == n)

/-- `DialogFlow.is_complete`. -/
def DialogFlow.isComplete (f : DialogFlow) : Bool :=
  f.slots.all (fun s => !s.required || s.value.isSome)

/-- `DialogFlow.reset`. -/
def DialogFlow.reset (f : DialogFlow) : DialogFlow :=
  { f with slots := f.slots.map Slot.reset, status := .notStarted,
           started := false }

/-- Python `str.isdigit()` (ASCII scope). -/
def pyIsDigit (s : String) : Bool :=
  !s.data.isEmpty && s.data.all Char.isDigit

/-- The RFQ flow (`rfq_flow`). -/
def rfqFlow : DialogFlow where
  name := "rfq_flow"
  triggerIntents := ["NAV_RFQ", "request_quote"]
  slots :=
    [{ name := "product",
       prompt := "Which product are you interested in getting a quote for?",
       entityType := some "product",
       errorMessage := "I couldn" ++ squote ++ "t identify that product. Could you specify the product name? (e.g., servo motors, actuators)" },
     { name := "quantity",
       prompt := "How many units do you need?",
       entityType := some "quantity",
       validator := some (fun x => pyIsDigit x && digitsValStr x > 0),
       normalizer := some (fun x => String.mk (x.data.filter Char.isDigit)),
       errorMessage := "Please enter a valid number of units (e.g., 500)." },
     { name := "company",
       prompt := "What" ++ squote ++ "s your company name?",
       entityType := some "company",
       validator := some (fun x => x.length ≥ 2),
       errorMessage := "Please provide your company name (at least 2 characters)." },
     { name := "email",
       prompt := "What email should I send the quote to?",
       entityType := some "email",
       validator := some (fun x => pyInStr "@" x &&
         pyInStr "." (String.mk ((splitAtChar (Char.ofNat 64) x.data).getLastD []))),
       normalizer := some (fun x => pyStrip (pyLower x)),
       errorMessage := "Please enter a valid email address (e.g., orders@company.com)." },
     { name := "timeline",
       prompt := "When do you need this delivered by? (optional - type " ++ squote ++ "skip" ++ squote ++ " to skip)",
       required := false,
       entityType := some "date" }]
  completionMessage := some ("âœ… Perfect! I" ++ squote ++ "ve submitted your RFQ:\n\n  â€¢ Product: {product}\n  â€¢ Quantity: {quantity} units\n  â€¢ Company: {company}\n  â€¢ Email: {email}\n\nOur sales team will send a detailed quote to {email} within 24 hours. Is there anything else I can help with?")
  confirmationPrompt := some ("Just to confirm, you" ++ squote ++ "d like a quote for:\n  â€¢ {quantity} x {product}\n  â€¢ For: {company}\n  â€¢ Send to: {email}\n\nIs this correct? (yes/no)")

/-- The order-tracking flow (`tracking_flow`). -/
def trackingFlow : DialogFlow where
  name := "tracking_flow"
  triggerIntents := ["INFO_TRACK", "track_order", "order_status"]
  slots :=
    [{ name := "order_number",
       prompt := "What" ++ squote ++ "s your order or PO number?",
       entityType := some "order_number",
       validator := some (fun x => x.length ≥ 4 && x.data.any Char.isDigit),
       normalizer := some (fun x => pyReplace (pyUpper x) " " ""),
       errorMessage := "Order numbers are usually 4+ characters with some digits. Please check and try again (e.g., PO-12345)." }]
  completionMessage := some "ðŸ“¦ Looking up order **{order_number}**...\n\nYour order is currently **In Transit** and expected to arrive in 3-5 business days.\nFor real-time tracking, I can send updates to your email. Would you like that?"

/-- The bulk-discount flow (`bulk_discount_flow`). -/
def bulkDiscountFlow : DialogFlow where
  name := "bulk_discount_flow"
  triggerIntents := ["INFO_BULK", "volume_discount", "bulk_pricing"]
  slots :=
    [{ name := "product",
       prompt := "Which product are you considering for bulk order?",
       entityType := some "product" },
     { name := "quantity",
       prompt := "Approximately how many units are you thinking?",
       entityType := some "quantity",
       validator := some (fun x => pyIsDigit x && digitsValStr x ≥ 100),
       errorMessage := "For bulk discounts, minimum quantity is 100 units. How many do you need?" }]
  completionMessage := some "ðŸ’° Great news! For **{quantity} {product}**, here are your discount tiers:\n\n  â€¢ 100-499 units: 5% off\n  â€¢ 500-999 units: 10% off\n  â€¢ 1000+ units: 15% off + free shipping\n\nWould you like me to prepare a formal quote with exact pricing?"

/-- The sample-request flow (`sample_flow`). -/
def sampleFlow : DialogFlow where
  name := "sample_flow"
  triggerIntents := ["INFO_SAMPLE", "request_sample"]
  slots :=
    [{ name := "product",
       prompt := "Which product would you like to sample?",
       entityType := some "product" },
     { name := "company",
       prompt := "What company are you with?",
       entityType := some "company" },
     { name := "email",
       prompt := "Where should we send the sample confirmation?",
       entityType := some "email",
       validator := some (fun x => pyInStr "@" x &&
         pyInStr "." (String.mk ((splitAtChar (Char.ofNat 64) x.data).getLastD []))) }]
  completionMessage := some ("ðŸ“¬ Sample request submitted!\n\n  â€¢ Product: {product}\n  â€¢ Company: {company}\n\nWe" ++ squote ++ "ll send sample details and pricing to {email}. Note: Sample cost is credited toward bulk orders over 500 units.")

/-- The pricing-inquiry flow (`pricing_flow`). -/
def pricingFlow : DialogFlow where
  name := "pricing_flow"
  triggerIntents := ["INFO_PRICE", "price_check"]
  slots :=
    [{ name := "product",
       prompt := "Which product would you like pricing for?",
       entityType := some "product",
       errorMessage := "I didn" ++ squote ++ "t catch the product name. We have servo motors, specialized cables, and actuators." },
     { name := "large_order_check",
       prompt := "Asking... (dynamic prompt needed)",
       entityType := some "confirmation",
       required := true }]
  completionMessage := some "Checking custom pricing options..."
  confirmationPrompt := none

/-- The product-inquiry fallback flow (`product_inquiry_flow`). -/
def productInquiryFlow : DialogFlow where
  name := "product_inquiry_flow"
  triggerIntents := ["INFO_MOQ"]
  slots :=
    [{ name := "product",
       prompt := "Which product would you like information about?",
       entityType := some "product" }]
  completionMessage := none

/-- Dialog manager state: the `flows` registry and the session →
flow-name `active_flows` map. -/
structure DMState where
  flows : List (String × DialogFlow)
  activeFlows : List (String × String)

/-- The manager state right after `_register_default_flows`. -/
def defaultDMState : DMState where
  flows :=
    [("rfq_flow", rfqFlow),
     ("tracking_flow", trackingFlow),
     ("bulk_discount_flow", bulkDiscountFlow),
     ("sample_flow", sampleFlow),
     ("pricing_flow", pricingFlow),
     ("product_inquiry_flow", productInquiryFlow)]
  activeFlows := []

/-- `DialogManager.get_flow_for_intent` (returning the registry key of the
first flow whose trigger intents contain the intent). -/
def getFlowNameForIntent (st : DMState) (intent : String) : Option String :=
  (st.flows.find? (fun p => p.2.triggerIntents.contains intent)).map Prod.fst

/-- Write a flow back into the registry. -/
def setFlow (st : DMState) (fname : String) (f : DialogFlow) : DMState :=
  { st with flows := dset st.flows fname f }

/-- Read a flow from the registry (call sites guarantee presence). -/
def getFlowD (st : DMState) (fname : String) : DialogFlow :=
  (dlookup st.flows fname).getD
    { name := "", triggerIntents := [], slots := [], completionMessage := none }

/-- `DialogManager._end_flow`: reset the session's flow and deregister the
session. -/
def endFlow (st : DMState) (sid : String) : DMState :=
  match dlookup st.activeFlows sid with
  | some fname =>
      let st1 :=
        match dlookup st.flows fname with
        | some f => setFlow st fname f.reset
        | none => st
      { st1 with activeFlows := derase st1.activeFlows sid }
  | none => st

/-- The result dict returned by a dialog turn (`current_slot` and `error`
are optional keys, modelled with defaults). -/
structure TurnResult where
  response : Option String
  flowStatus : DialogStatus
  filledSlots : List (String × String)
  action : Option String
  flowName : String
  currentSlot : Option String := none
  error : Bool := false
deriving DecidableEq, Repr

/-- `template.format(**filled)` for templates whose placeholders are among
the filled slot names (a missing placeholder would raise `KeyError` in
Python; no claim reaches that case). -/
def pyFormat (t : String) (vals : List (String × String)) : String :=
  vals.foldl (fun acc kv => pyReplace acc ("\x7b" ++ kv.1 ++ "\x7d") kv.2) t

/-- `DialogManager._complete_flow`: format the completion message, mark
COMPLETED, then `_end_flow` (which resets the registered flow).  The
`on_complete` callback is `None` for every registered flow. -/
def completeFlow (st : DMState) (fname sid : String) : TurnResult × DMState :=
  let flow := getFlowD st fname
  let filled := flow.getFilledSlots
  let response := flow.completionMessage.map (fun t => pyFormat t filled)
  let st1 := setFlow st fname { flow with status := .completed }
  let st2 := endFlow st1 sid
  ({ response := response, flowStatus := .completed, filledSlots := filled,
     action := none, flowName := fname }, st2)

/-- Default cancellation message. -/
def cancelDefaultMsg : String :=
  "No problem, I" ++ squote ++ "ve cancelled that. How else can I help you?"

/-- `DialogManager._cancel_flow` (`message = reason or default`). -/
def cancelFlow (st : DMState) (fname sid : String) (reason : Option String) :
    TurnResult × DMState :=
  let flow := getFlowD st fname
  let st1 := setFlow st fname { flow with status := .cancelled }
  let st2 := endFlow st1 sid
  let message :=
    match reason with
    | some r => if r = "" then cancelDefaultMsg else r
    | none => cancelDefaultMsg
  ({ response := some message, flowStatus := .cancelled, filledSlots := [],
     action := none, flowName := fname }, st2)

/-- The "too many attempts" cancellation reason. -/
def tooManyAttemptsMsg : String :=
  "Too many invalid attempts. Let" ++ squote ++ "s start over when you" ++
    squote ++ "re ready."

/-- `DialogManager._get_error_response`: cancel after `max_attempts`, else
return the slot's error message. -/
def getErrorResponse (st : DMState) (fname sid : String) (slot : Slot) :
    TurnResult × DMState :=
  if slot.attempts ≥ slot.maxAttempts then
    cancelFlow st fname sid (some tooManyAttemptsMsg)
  else
    ({ response := some slot.errorMessage, flowStatus := .inProgress,
       filledSlots := (getFlowD st fname).getFilledSlots, action := none,
       flowName := fname, currentSlot := some slot.name, error := true }, st)

/-- The `mock_prices` dict of the dynamic pricing prompt, in insertion
order. -/
def mockPrices : List (String × String) :=
  [("servo", "$450.00"), ("motor", "$450.00"), ("fiber", "$120.00"),
   ("cable", "$12.00/m"), ("actuator", "$85.00"), ("sensor", "$45.00"),
   ("valve", "$60.00")]

/-- The dynamic pricing prompt of `_get_next_prompt` for
`pricing_flow.large_order_check`. -/
def dynPricingPrompt (flow : DialogFlow) : String :=
  let productVal := pyLower ((dlookup flow.getFilledSlots "product").getD "")
  let price :=
    match mockPrices.find? (fun kv => pyInStr kv.1 productVal) with
    | some kv => kv.2
    | none => "$TBD"
  "The standard price for **" ++ pyTitle productVal ++ "** is **" ++ price ++
    "** (per unit).\nHowever, we offer custom quotes for large orders. \n\n" ++
    "Would you like to proceed with a custom quote request?"

/-- `DialogManager._get_next_prompt`. -/
def getNextPrompt (st : DMState) (fname sid : String) : TurnResult × DMState :=
  let flow := getFlowD st fname
  match flow.getNextRequiredEmptySlot with
  | some slot =>
      let prompt :=
        if flow.name = "pricing_flow" ∧ slot.name = "large_order_check" then
          dynPricingPrompt flow
        else
          match slot.repromptMessage with
          | some rp => if slot.attempts > 0 then rp else slot.prompt
          | none => slot.prompt
      ({ response := some prompt, flowStatus := .inProgress,
         filledSlots := flow.getFilledSlots, action := none,
         flowName := fname, currentSlot := some slot.name }, st)
  | none =>
      match flow.getNextEmptySlot with
      | some oslot =>
          ({ response := some oslot.prompt, flowStatus := .inProgress,
             filledSlots := flow.getFilledSlots, action := none,
             flowName := fname, currentSlot := some oslot.name }, st)
      | none =>
          match flow.confirmationPrompt with
          | some cp =>
              if flow.status ≠ DialogStatus.awaitingConfirmation then
                let filled := flow.getFilledSlots
                let st1 := setFlow st fname
                  { flow with status := .awaitingConfirmation }
                ({ response := some (pyFormat cp filled),
                   flowStatus := .awaitingConfirmation, filledSlots := filled,
                   action := none, flowName := fname }, st1)
              else completeFlow st fname sid
          | none => completeFlow st fname sid

/-- Affirmative confirmation tokens. -/
def affirmTokens : List String :=
  ["yes", "y", "correct", "confirm", "that" ++ squote ++ "s right", "yep",
   "yeah"]

/-- Negative confirmation tokens. -/
def negTokens : List String :=
  ["no", "n", "wrong", "incorrect", "change", "edit"]

/-- The "what would you like to change" reply. -/
def changeMsg : String :=
  "What would you like to change? You can say things like " ++ squote ++
    "change quantity to 1000" ++ squote ++ " or " ++ squote ++
    "different email" ++ squote ++ "."

/-- The reprompt prefix of the confirmation handler. -/
def confirmRepromptPrefix : String :=
  "Please confirm with " ++ squote ++ "yes" ++ squote ++ " or " ++ squote ++
    "no" ++ squote ++ ". "

/-- `DialogManager._handle_confirmation`. -/
def handleConfirmation (st : DMState) (fname sid userText : String) :
    TurnResult × DMState :=
  let flow := getFlowD st fname
  let textLower := pyStrip (pyLower userText)
  if affirmTokens.contains textLower then completeFlow st fname sid
  else if negTokens.contains textLower then
    ({ response := some changeMsg, flowStatus := .inProgress,
       filledSlots := flow.getFilledSlots, action := none,
       flowName := fname }, st)
  else
    ({ response := some (confirmRepromptPrefix ++
         pyFormat (flow.confirmationPrompt.getD "") flow.getFilledSlots),
       flowStatus := .awaitingConfirmation,
       filledSlots := flow.getFilledSlots, action := none,
       flowName := fname }, st)

/-- The cancellation phrases checked on every continued turn. -/
def cancelPhrases : List String :=
  ["cancel", "stop", "never mind", "nevermind", "forget it", "quit", "exit"]

/-- `DialogManager._continue_flow`. -/
def continueFlow (st : DMState) (fname sid : String)
    (entities : List (String × String)) (userText : String) :
    TurnResult × DMState :=
  let flow := getFlowD st fname
  if cancelPhrases.any (fun p => pyInStr p (pyLower userText)) then
    cancelFlow st fname sid none
  else
    let currentSlot := flow.getNextEmptySlot
    let skipTaken :=
      match currentSlot with
      | some cs =>
          !cs.required &&
            ["skip", "no", "none", "n/a"].contains (pyStrip (pyLower userText))
      | none => false
    if skipTaken then
      match currentSlot with
      | some cs =>
          getNextPrompt (setFlow st fname (flow.setSlotValue cs.name "N/A"))
            fname sid
      | none => getNextPrompt st fname sid
    else if flow.status = DialogStatus.awaitingConfirmation then
      handleConfirmation st fname sid userText
    else
      match currentSlot with
      | some cs =>
          let value :=
            match cs.entityType with
            | some t =>
                match dlookup entities t with
                | some v => if v = "" then pyStrip userText else v
                | none => pyStrip userText
            | none => pyStrip userText
          let r := flow.fillSlot cs.name value
          let st1 := setFlow st fname r.2
          if r.1 then getNextPrompt st1 fname sid
          else
            match r.2.getSlot cs.name with
            | some s1 => getErrorResponse st1 fname sid s1
            | none => getNextPrompt st1 fname sid
      | none => getNextPrompt st fname sid

/-- The slot pre-fill loop of `_start_flow`: a slot whose declared entity
type carries a value this turn is filled with the normalization of that
value when the raw value passes validation (`if slot.validate(value):
slot.value = slot.normalize(value)`). -/
def prefillSlots (slots : List Slot) (entities : List (String × String)) :
    List Slot :=
  slots.map (fun slot =>
    match slot.entityType with
    | some t =>
        match dlookup entities t with
        | some v =>
            if slot.validate v then { slot with value := some (slot.normalize v) }
            else slot
        | none => slot
    | none => slot)

/-- `DialogManager._start_flow`: reset, mark IN_PROGRESS, register the
session, pre-fill slots from this turn's entities, then prompt. -/
def startFlow (st : DMState) (fname : String)
    (entities : List (String × String)) (sid : String) :
    TurnResult × DMState :=
  let flow := (getFlowD st fname).reset
  let flow1 := { flow with status := DialogStatus.inProgress, started := true }
  let flow2 := { flow1 with slots := prefillSlots flow1.slots entities }
  let st1 := setFlow { st with activeFlows := dset st.activeFlows sid fname }
    fname flow2
  getNextPrompt st1 fname sid

/-- `DialogManager.process_turn`.  When there is an active flow whose name
is not in the registry, Python would raise on the `None` flow; that path is
unreachable (flows are registered before activation) and returns no result
here. -/
def process_turn (st : DMState) (intent : Option String)
    (entities : List (String × String)) (userText sid : String) :
    Option TurnResult × DMState :=
  match dlookup st.activeFlows sid with
  | some fname =>
      match dlookup st.flows fname with
      | some _ =>
          let r := continueFlow st fname sid entities userText
          (some r.1, r.2)
      | none => (none, st)
  | none =>
      match intent with
      | some i =>
          match getFlowNameForIntent st i with
          | some fname =>
              let r := startFlow st fname entities sid
              (some r.1, r.2)
          | none => (none, st)
      | none => (none, st)

/-!
## Dialog manager lemmas and claims
-/

theorem endFlow_deregisters (st : DMState) (sid : String) :
    dlookup (endFlow st sid).activeFlows sid = none := by
  unfold endFlow
  cases h : dlookup st.activeFlows sid with
  | none => exact h
  | some fname =>
      cases dlookup st.flows fname <;>
        simp [setFlow, dlookup_derase_self]

theorem getNextEmptySlot_none (f : DialogFlow)
    (h : f.getNextEmptySlot.isNone = true) :
    f.getNextRequiredEmptySlot = none ∧ f.getNextEmptySlot = none := by
  unfold DialogFlow.getNextEmptySlot DialogFlow.getNextRequiredEmptySlot at *
  cases hr : f.slots.find? (fun s => s.required && s.value.isNone) with
  | some s => rw [hr] at h; simp at h
  | none =>
      rw [hr] at h
      cases ho : f.slots.find? (fun s => !s.required && s.value.isNone) with
      | some s => rw [ho] at h; simp at h
      | none => simp [hr, ho]

/-- C10: with no active flow for the session, `process_turn` with a `None`
intent or an intent that triggers no registered flow returns `None` and
leaves the manager state (active-flow registry and every registered flow)
unchanged. -/
theorem process_turn_no_flow_no_trigger (st : DMState) (sid : String)
    (intent : Option String) (entities : List (String × String))
    (userText : String)
    (hactive : dlookup st.activeFlows sid = none)
    (hint : intent = none ∨
      ∃ i, intent = some i ∧ getFlowNameForIntent st i = none) :
    process_turn st intent entities userText sid = (none, st) := by
  unfold process_turn
  rw [hactive]
  rcases hint with rfl | ⟨i, rfl, hnone⟩
  · rfl
  · dsimp only
    rw [hnone]

/-- Witness for C10 at the default manager: neither a `None` intent nor
"GREETING" (no flow's trigger) produces flow handling. -/
theorem process_turn_no_flow_no_trigger_witness :
    process_turn defaultDMState none [] "hello" "s1"
      = (none, defaultDMState) ∧
    process_turn defaultDMState (some "GREETING") [] "hello" "s1"
      = (none, defaultDMState) := by
  constructor
  · exact process_turn_no_flow_no_trigger defaultDMState "s1" none [] "hello"
      rfl (Or.inl rfl)
  · exact process_turn_no_flow_no_trigger defaultDMState "s1" (some "GREETING")
      [] "hello" rfl (Or.inr ⟨"GREETING", rfl, rfl⟩)

/-- C2 (code evaluated at the failing input): submitting quantity "-5" in
the RFQ flow does not fail validation — the normalizer strips the sign
first, so the slot is filled with "5" on the first attempt and the flow
moves on to the company prompt with no error; the validator's
`int(x) > 0` check and the spec's "-5 is invalid" scenario are thereby
defeated. -/
theorem rfq_quantity_minus5_accepted :
    ((getFlowD defaultDMState "rfq_flow").getSlot "quantity").map
        (fun s => s.normalize "-5") = some "5" ∧
    ((getFlowD defaultDMState "rfq_flow").getSlot "quantity").map
        (fun s => s.validate (s.normalize "-5")) = some true ∧
    (let st1 := (process_turn defaultDMState (some "NAV_RFQ")
        [("product", "servo motor")] "quote" "s1").2
     let r := process_turn st1 none [] "-5" "s1"
     (r.1.map TurnResult.error) = some false ∧
     (r.1.map TurnResult.flowStatus) = some DialogStatus.inProgress ∧
     (r.1.map TurnResult.currentSlot) = some (some "company") ∧
     dlookup ((getFlowD r.2 "rfq_flow").getFilledSlots) "quantity"
       = some "5") := by
  refine ⟨by decide, by decide, ?_, ?_, ?_, ?_⟩ <;> decide

/-- The RFQ flow with every slot resolved, in progress, used to witness the
confirmation behaviour. -/
def rfqFilledFlow : DialogFlow :=
  { ((((rfqFlow.setSlotValue "product" "servo motor").setSlotValue
        "quantity" "500").setSlotValue "company" "Acme Industries").setSlotValue
        "email" "orders@acme.com").setSlotValue "timeline" "N/A" with
    status := DialogStatus.inProgress, started := true }

/-- Manager state with the resolved RFQ flow active for session `s1`. -/
def rfqConfirmState : DMState :=
  { flows := dset defaultDMState.flows "rfq_flow" rfqFilledFlow,
    activeFlows := [("s1", "rfq_flow")] }

/-- C3 counterexample: in the RFQ flow (which has a confirmation template),
the turn that fills the last required slot (email) returns status
IN_PROGRESS — it prompts for the optional timeline slot — not
AWAITING_CONFIRMATION, although all required slots are then filled;
moreover "incorrect" is treated as a negative token (returning the
change prompt), not as "any other input" re-rendering the confirmation. -/
theorem confirmation_claim_counterexample :
    (let s1 := (process_turn defaultDMState (some "NAV_RFQ")
        [("product", "servo motor")] "quote" "s1").2
     let s2 := (process_turn s1 none [] "500" "s1").2
     let s3 := (process_turn s2 none [] "Acme Industries" "s1").2
     let r := process_turn s3 none [] "orders@acme.com" "s1"
     (getFlowD r.2 "rfq_flow").isComplete = true ∧
     (getFlowD r.2 "rfq_flow").confirmationPrompt.isSome = true ∧
     r.1.map TurnResult.flowStatus = some DialogStatus.inProgress ∧
     r.1.map TurnResult.currentSlot = some (some "timeline")) ∧
    (handleConfirmation rfqConfirmState "rfq_flow" "s1" "incorrect").1.response
      = some changeMsg := by
  refine ⟨⟨?_, ?_, ?_, ?_⟩, ?_⟩ <;> decide

/-- C3 (amended): once every slot is resolved (required filled, optional
filled or skipped) and a confirmation template exists and has not yet been
shown, the returned flow status becomes AWAITING_CONFIRMATION with the
rendered template; an affirmative token then completes the flow exactly
once (the session is deregistered, so a further turn gets no flow
handling); a negative token returns status IN_PROGRESS with the manager
state — in particular every filled slot — unchanged; and any input that is
neither an affirmative nor a negative token re-renders the confirmation
prompt prefixed by a request to answer yes or no, again without changing
state. -/
theorem confirmation_loop_amended :
    (∀ (st : DMState) (fname sid cp : String),
        (getFlowD st fname).getNextEmptySlot.isNone = true →
        (getFlowD st fname).confirmationPrompt = some cp →
        (getFlowD st fname).status ≠ DialogStatus.awaitingConfirmation →
        (getNextPrompt st fname sid).1.flowStatus
            = DialogStatus.awaitingConfirmation ∧
        (getNextPrompt st fname sid).1.response
            = some (pyFormat cp (getFlowD st fname).getFilledSlots)) ∧
    (∀ (st : DMState) (fname sid t : String),
        affirmTokens.contains (pyStrip (pyLower t)) = true →
        (handleConfirmation st fname sid t).1.flowStatus
            = DialogStatus.completed ∧
        dlookup (handleConfirmation st fname sid t).2.activeFlows sid
            = none ∧
        (process_turn (handleConfirmation st fname sid t).2 none [] "" sid).1
            = none) ∧
    (∀ (st : DMState) (fname sid t : String),
        negTokens.contains (pyStrip (pyLower t)) = true →
        handleConfirmation st fname sid t
          = ({ response := some changeMsg,
               flowStatus := DialogStatus.inProgress,
               filledSlots := (getFlowD st fname).getFilledSlots,
               action := none, flowName := fname }, st)) ∧
    (∀ (st : DMState) (fname sid t : String),
        affirmTokens.contains (pyStrip (pyLower t)) = false →
        negTokens.contains (pyStrip (pyLower t)) = false →
        handleConfirmation st fname sid t
          = ({ response := some (confirmRepromptPrefix ++
                 pyFormat ((getFlowD st fname).confirmationPrompt.getD "")
                   (getFlowD st fname).getFilledSlots),
               flowStatus := DialogStatus.awaitingConfirmation,
               filledSlots := (getFlowD st fname).getFilledSlots,
               action := none, flowName := fname }, st)) := by
  refine ⟨?_, ?_, ?_, ?_⟩
  · intro st fname sid cp h hcp hstat
    have hs := getNextEmptySlot_none _ h
    unfold getNextPrompt
    dsimp only
    rw [hs.1]
    dsimp only
    rw [hs.2]
    dsimp only
    rw [hcp]
    dsimp only
    rw [if_pos hstat]
    exact ⟨rfl, rfl⟩
  · intro st fname sid t ha
    unfold handleConfirmation
    dsimp only
    rw [ha]
    simp only [if_true]
    refine ⟨rfl, ?_, ?_⟩
    · unfold completeFlow
      dsimp only
      exact endFlow_deregisters _ _
    · unfold process_turn
      rw [show dlookup (completeFlow st fname sid).2.activeFlows sid = none by
        unfold completeFlow
        dsimp only
        exact endFlow_deregisters _ _]
  · intro st fname sid t hn
    have hx : pyStrip (pyLower t) ∈ negTokens := by
      simpa [List.contains] using hn
    have haff : affirmTokens.contains (pyStrip (pyLower t)) = false := by
      simp only [negTokens, List.mem_cons, List.not_mem_nil, or_false] at hx
      rcases hx with h1 | h1 | h1 | h1 | h1 | h1 <;> rw [h1] <;> decide
    unfold handleConfirmation
    dsimp only
    rw [haff, hn]
    rfl
  · intro st fname sid t ha hn
    unfold handleConfirmation
    dsimp only
    rw [ha, hn]
    rfl

/-- Witness for the amended confirmation behaviour at the resolved RFQ
state: the confirmation is shown, "yes" completes and deregisters, "no"
leaves the state untouched, "maybe" re-renders. -/
theorem confirmation_loop_amended_witness :
    (getNextPrompt rfqConfirmState "rfq_flow" "s1").1.flowStatus
        = DialogStatus.awaitingConfirmation ∧
    (handleConfirmation rfqConfirmState "rfq_flow" "s1" "yes").1.flowStatus
        = DialogStatus.completed ∧
    dlookup (handleConfirmation rfqConfirmState "rfq_flow" "s1"
        "yes").2.activeFlows "s1" = none ∧
    (handleConfirmation rfqConfirmState "rfq_flow" "s1" "no").1.flowStatus
        = DialogStatus.inProgress ∧
    (handleConfirmation rfqConfirmState "rfq_flow" "s1" "no").2
        = rfqConfirmState ∧
    (handleConfirmation rfqConfirmState "rfq_flow" "s1" "maybe").1.flowStatus
        = DialogStatus.awaitingConfirmation := by
  have h := confirmation_loop_amended
  have h1 := h.1 rfqConfirmState "rfq_flow" "s1"
    ((rfqFlow.confirmationPrompt).getD "") (by decide) (by decide) (by decide)
  have h2 := h.2.1 rfqConfirmState "rfq_flow" "s1" "yes" (by decide)
  have h3 := h.2.2.1 rfqConfirmState "rfq_flow" "s1" "no" (by decide)
  have h4 := h.2.2.2 rfqConfirmState "rfq_flow" "s1" "maybe" (by decide)
    (by decide)
  exact ⟨h1.1, h2.1, h2.2.1, by rw [h3], by rw [h3], by rw [h4]⟩

/-- C9 counterexample: the value "1.2.3" (which `extract_all` can produce
for a quantity, since `_normalize_value` returns it unchanged) has a
normalized form "123" that passes the RFQ quantity validator, yet
`_start_flow` with entities `{quantity: "1.2.3"}` leaves the quantity slot
unfilled — `_start_flow` validates the raw value, not the normalized one. -/
theorem start_flow_prefill_counterexample :
    normalize_value "quantity" "1.2.3" = "1.2.3" ∧
    ((getFlowD defaultDMState "rfq_flow").getSlot "quantity").map
        (fun s => s.normalize "1.2.3") = some "123" ∧
    ((getFlowD defaultDMState "rfq_flow").getSlot "quantity").map
        (fun s => s.validate (s.normalize "1.2.3")) = some true ∧
    (startFlow defaultDMState "rfq_flow" [("quantity", "1.2.3")]
        "s1").1.filledSlots = [] ∧
    dlookup (getFlowD (startFlow defaultDMState "rfq_flow"
        [("quantity", "1.2.3")] "s1").2 "rfq_flow").getFilledSlots "quantity"
      = none := by
  refine ⟨?_, ?_, ?_, ?_, ?_⟩ <;> decide

/-- C9 (amended): on starting a flow, a slot whose declared entity type
carries a value this turn is pre-filled with the normalization of that
value exactly when the RAW value passes validation (`_start_flow` runs
`slot.validate(value)` before `slot.normalize(value)`); slots with no
declared type or no matching entity are untouched. -/
theorem start_flow_prefill_rule (slots : List Slot)
    (entities : List (String × String)) (i : Nat) (slot : Slot)
    (hi : slots[i]? = some slot) :
    (∀ t v, slot.entityType = some t → dlookup entities t = some v →
      (prefillSlots slots entities)[i]?
        = some (if slot.validate v = true then
            { slot with value := some (slot.normalize v) } else slot)) ∧
    (slot.entityType = none →
      (prefillSlots slots entities)[i]? = some slot) ∧
    (∀ t, slot.entityType = some t → dlookup entities t = none →
      (prefillSlots slots entities)[i]? = some slot) := by
  refine ⟨?_, ?_, ?_⟩
  · intro t v ht hv
    unfold prefillSlots
    rw [List.getElem?_map, hi]
    dsimp only [Option.map]
    rw [ht]
    dsimp only
    rw [hv]
  · intro ht
    unfold prefillSlots
    rw [List.getElem?_map, hi]
    dsimp only [Option.map]
    rw [ht]
  · intro t ht hv
    unfold prefillSlots
    rw [List.getElem?_map, hi]
    dsimp only [Option.map]
    rw [ht]
    dsimp only
    rw [hv]

/-- Witness for the pre-fill rule: starting the RFQ flow with entities
`{product: "servo motor"}` pre-fills the product slot (the raw value passes
the default validator, and its normalization is stored). -/
theorem start_flow_prefill_rule_witness :
    ((prefillSlots rfqFlow.slots [("product", "servo motor")])[0]?).map
        (fun s => s.value) = some (some "servo motor") := by
  have h := start_flow_prefill_rule rfqFlow.slots
    [("product", "servo motor")] 0
    { name := "product",
      prompt := "Which product are you interested in getting a quote for?",
      entityType := some "product",
      errorMessage := "I couldn" ++ squote ++ "t identify that product. Could you specify the product name? (e.g., servo motors, actuators)" }
    rfl
  rw [h.1 "product" "servo motor" rfl rfl]
  decide

/-!
## `lambda_function.py`: hybrid arbitration, topic shift, corrections

Float thresholds are written `mkRat` (exact values of the literals 0.85,
0.60, 0.5, 0.6).  The semantic and fuzzy collaborators (embedding model,
rapidfuzz) are external; the functions below are parameterized by their
outcomes, exactly as `_detect_intent_hybrid` consumes them.
-/

/-- The arbitration block of `_detect_intent_hybrid` (lines 660-676):
`semantic_result` is `(intent, confidence)`, `fuzzy_result` is
`(best_fuzzy_intent, fuzzy_confidence)` when the fuzzy score cleared the
0.5 threshold.  `fuzzy_confidence` is passed separately for the no-match
branch (`max(fuzzy_confidence, 0)`). -/
def arbitrationStage (semanticResult : Option (String × ℚ))
    (fuzzyResult : Option (Option String × ℚ)) (fuzzyConfidence : ℚ) :
    Option String × ℚ × String :=
  match semanticResult, fuzzyResult with
  | some (si, sc), some (fi, fc) =>
      if sc ≥ mkRat 60 100 then (some si, sc, "semantic")
      else if sc ≥ fc then (some si, sc, "semantic")
      else (fi, fc, "fuzzy")
  | some (si, sc), none => (some si, sc, "semantic")
  | none, some (fi, fc) => (fi, fc, "fuzzy")
  | none, none => (none, max fuzzyConfidence 0, "none")

/-- `_detect_intent_hybrid` from Layer 2 on, given the collaborator
outcomes: `semanticResult` is `None` when the semantic layer is absent,
not ready, or below its 0.45 match threshold; `bestFuzzyIntent` and
`fuzzyConfidence` (= `best_fuzzy_score / 100`) come from the fuzzy loop.
A semantic confidence above 0.85 returns immediately inside Layer 2; the
fuzzy result only exists at confidence ≥ 0.5.  (The continuity-word and
category-question guards return before either collaborator runs and are
outside this function.) -/
def detectIntentHybrid (semanticResult : Option (String × ℚ))
    (bestFuzzyIntent : Option String) (fuzzyConfidence : ℚ) :
    Option String × ℚ × String :=
  let fuzzyResult : Option (Option String × ℚ) :=
    if fuzzyConfidence ≥ mkRat 50 100 then
      some (bestFuzzyIntent, fuzzyConfidence)
    else none
  match semanticResult with
  | some (si, sc) =>
      if sc > mkRat 85 100 then (some si, sc, "semantic")
      else arbitrationStage (some (si, sc)) fuzzyResult fuzzyConfidence
  | none => arbitrationStage none fuzzyResult fuzzyConfidence

/-- C8: the hybrid arbitration returns the semantic result immediately
above 0.85; with both collaborators present it prefers semantic iff its
confidence is ≥ 0.60 or ≥ the fuzzy confidence, else fuzzy; with exactly
one present it returns that one; with neither it returns a no-match
carrying the raw fuzzy confidence (possibly 0). -/
theorem hybrid_arbitration_rule :
    (∀ (si : String) (sc : ℚ) (bfi : Option String) (fc : ℚ),
        sc > mkRat 85 100 →
        detectIntentHybrid (some (si, sc)) bfi fc = (some si, sc, "semantic")) ∧
    (∀ (si : String) (sc : ℚ) (bfi : Option String) (fc : ℚ),
        sc ≤ mkRat 85 100 → fc ≥ mkRat 50 100 →
        detectIntentHybrid (some (si, sc)) bfi fc
          = if sc ≥ mkRat 60 100 ∨ sc ≥ fc then (some si, sc, "semantic")
            else (bfi, fc, "fuzzy")) ∧
    (∀ (si : String) (sc : ℚ) (bfi : Option String) (fc : ℚ),
        fc < mkRat 50 100 →
        detectIntentHybrid (some (si, sc)) bfi fc = (some si, sc, "semantic")) ∧
    (∀ (bfi : Option String) (fc : ℚ), fc ≥ mkRat 50 100 →
        detectIntentHybrid none bfi fc = (bfi, fc, "fuzzy")) ∧
    (∀ (bfi : Option String) (fc : ℚ), fc < mkRat 50 100 → 0 ≤ fc →
        detectIntentHybrid none bfi fc = (none, fc, "none")) := by
  refine ⟨?_, ?_, ?_, ?_, ?_⟩
  · intro si sc bfi fc h
    unfold detectIntentHybrid
    dsimp only
    rw [if_pos h]
  · intro si sc bfi fc h85 h50
    unfold detectIntentHybrid
    dsimp only
    rw [if_neg (not_lt.2 h85), if_pos h50]
    unfold arbitrationStage
    dsimp only
    by_cases h60 : sc ≥ mkRat 60 100
    · rw [if_pos h60, if_pos (Or.inl h60)]
    · rw [if_neg h60]
      by_cases hfc : sc ≥ fc
      · rw [if_pos hfc, if_pos (Or.inr hfc)]
      · rw [if_neg hfc, if_neg (by tauto)]
  · intro si sc bfi fc h
    unfold detectIntentHybrid
    dsimp only
    rw [if_neg (not_le.2 h)]
    by_cases h85 : sc > mkRat 85 100
    · rw [if_pos h85]
    · rw [if_neg h85]
      rfl
  · intro bfi fc h
    unfold detectIntentHybrid
    dsimp only
    rw [if_pos h]
    rfl
  · intro bfi fc h h0
    unfold detectIntentHybrid
    dsimp only
    rw [if_neg (not_le.2 h)]
    unfold arbitrationStage
    dsimp only
    rw [max_eq_left h0]

/-- Witness for the arbitration rule at concrete confidences: 0.9 semantic
wins outright; 0.55 semantic vs 0.7 fuzzy goes to fuzzy; 0.55 semantic
alone is returned; fuzzy 0.7 alone is returned; and with neither the
no-match carries confidence 0. -/
theorem hybrid_arbitration_rule_witness :
    detectIntentHybrid (some ("INFO_LEADTIME", mkRat 9 10)) (some "INFO_SHIPPING")
        (mkRat 7 10) = (some "INFO_LEADTIME", mkRat 9 10, "semantic") ∧
    detectIntentHybrid (some ("INFO_LEADTIME", mkRat 55 100)) (some "INFO_SHIPPING")
        (mkRat 7 10) = (some "INFO_SHIPPING", mkRat 7 10, "fuzzy") ∧
    detectIntentHybrid (some ("INFO_LEADTIME", mkRat 55 100)) (some "INFO_SHIPPING")
        (mkRat 2 10) = (some "INFO_LEADTIME", mkRat 55 100, "semantic") ∧
    detectIntentHybrid none (some "INFO_SHIPPING") (mkRat 7 10)
      = (some "INFO_SHIPPING", mkRat 7 10, "fuzzy") ∧
    detectIntentHybrid none none 0 = (none, 0, "none") := by
  have h := hybrid_arbitration_rule
  refine ⟨h.1 _ _ _ _ (by decide), ?_, h.2.2.1 _ _ _ _ (by decide),
    h.2.2.2.1 _ _ (by decide), h.2.2.2.2 _ _ (by decide) (by decide)⟩
  · rw [h.2.1 _ _ _ _ (by decide) (by decide), if_neg (by decide)]

/-- The intent decision triple threaded through stages 6-8 of
`lambda_handler`. -/
structure IntentDecision where
  intent : Option String
  confidence : ℚ
  method : String
deriving DecidableEq, Repr

/-- Stage 7 of `lambda_handler` (lines 263-296), the mid-flow topic-shift
override: if both an accumulated product and a freshly extracted product
exist (truthy) and differ case-insensitively, update the context product,
force-clear the session's dialog flow, set the method, default the intent
to PRODUCT_INQUIRY when confidence < 0.6, then upgrade to INFO_PRICE /
INFO_BULK on price/bulk keywords. -/
def topicShiftStage (currentProduct detectedProduct : Option String)
    (resolvedText : String) (d : IntentDecision)
    (ctxEntities : List (String × String)) (dm : DMState) (sid : String) :
    IntentDecision × List (String × String) × DMState :=
  if pyTruthyOpt currentProduct && pyTruthyOpt detectedProduct &&
      (pyLower (detectedProduct.getD "") != pyLower (currentProduct.getD ""))
  then
    let ctx1 := dset ctxEntities "product" (detectedProduct.getD "")
    let dm1 := endFlow dm sid
    let d1 := { d with method := "topic_shift_correction" }
    let d2 :=
      if d1.confidence < mkRat 6 10 then
        { d1 with intent := some "PRODUCT_INQUIRY", confidence := 1 }
      else d1
    let d3 :=
      if pyInStr "price" (pyLower resolvedText) ||
          pyInStr "pricing" (pyLower resolvedText) then
        { d2 with intent := some "INFO_PRICE", confidence := 1 }
      else d2
    let d4 :=
      if pyInStr "bulk" (pyLower resolvedText) ||
          pyInStr "volume" (pyLower resolvedText) then
        { d3 with intent := some "INFO_BULK", confidence := 1 }
      else d3
    (d4, ctx1, dm1)
  else (d, ctxEntities, dm)

/-- The `status_keywords` of the NAV→TRACK correction. -/
def statusKeywords : List String :=
  ["status", "track", "tracking", "where is", "update on", "check on"]

/-- Stage 8 of `lambda_handler` (lines 298-343), the intent corrections,
applied in source order after the topic-shift stage. -/
def intentCorrections (resolvedText : String)
    (detectedProduct : Option String) (hasRfqId : Bool)
    (d : IntentDecision) : IntentDecision :=
  let tl := pyLower resolvedText
  let d1 :=
    if pyInStr "how long" tl && pyInStr "deliver" tl then
      { intent := some "INFO_LEADTIME", confidence := 1,
        method := "keyword_correction" }
    else d
  let d2 :=
    if d1.intent == some "INFO_CONTEXT" && pyTruthyOpt detectedProduct then
      { intent := some "PRODUCT_INQUIRY", confidence := 1,
        method := "entity_correction" }
    else d1
  let d3 :=
    if (d2.intent == some "NAV_QUOTE" || d2.intent == some "NAV_RFQ") &&
        (pyInStr "price" tl || pyInStr "pricing" tl) then
      { intent := some "INFO_PRICE", confidence := 1,
        method := "keyword_correction" }
    else d2
  let d4 :=
    if hasRfqId then
      { intent := some "INFO_RFQ_STATUS", confidence := 1,
        method := "entity_correction" }
    else d3
  let d5 :=
    if pyInStr "rfq" tl && pyInStr "status" tl then
      { intent := some "INFO_RFQ_STATUS", confidence := 1,
        method := "keyword_correction" }
    else d4
  let d6 :=
    if (d5.intent == some "NAV_QUOTE" || d5.intent == some "NAV_RFQ") &&
        statusKeywords.any (fun kw => pyInStr kw tl) then
      { intent := some "INFO_TRACK", confidence := 1,
        method := "keyword_correction" }
    else d5
  let d7 :=
    if pyInStr "price of" tl then
      { intent := some "INFO_PRICE", confidence := 1,
        method := "keyword_correction" }
    else d6
  d7

/-- C4 counterexample: (i) the topic-shift stage does not always win — on
"how long to deliver the actuator" it fires (method becomes
"topic_shift_correction"), but the later leadtime correction of stage 8
overrides both intent and method; (ii) at arbitrated confidence exactly
0.6 — which does not exceed 0.6 — the intent is NOT defaulted to the
product-inquiry intent (the code's test is `confidence < 0.6`). -/
theorem topic_shift_not_always_final :
    (let d0 : IntentDecision := ⟨some "INFO_SHIPPING", mkRat 7 10, "fuzzy"⟩
     let r := topicShiftStage (some "bearing") (some "actuator")
       "how long to deliver the actuator" d0 [("product", "bearing")]
       rfqConfirmState "s1"
     r.1.method = "topic_shift_correction" ∧
     intentCorrections "how long to deliver the actuator" (some "actuator")
         false r.1
       = ⟨some "INFO_LEADTIME", 1, "keyword_correction"⟩) ∧
    (let d0 : IntentDecision := ⟨some "INFO_SHIPPING", mkRat 6 10, "fuzzy"⟩
     let r := topicShiftStage (some "bearing") (some "actuator")
       "need actuators" d0 [("product", "bearing")] rfqConfirmState "s1"
     r.1.intent = some "INFO_SHIPPING" ∧ r.1.confidence = mkRat 6 10) := by
  refine ⟨⟨?_, ?_⟩, ?_, ?_⟩ <;> decide

/-- C4 (amended): whenever both an accumulated product and a freshly
extracted product exist and differ case-insensitively, the topic-shift
stage — regardless of which earlier stage produced the current intent and
method — force-clears the session's dialog flow, rewrites the context
product, sets the method to "topic_shift_correction", and sets the intent
to INFO_BULK / INFO_PRICE on bulk/price keywords, else defaults it to
PRODUCT_INQUIRY exactly when the arbitrated confidence is strictly below
0.6; the later correction stage may still override this decision. -/
theorem topic_shift_stage_rule (cur det : Option String) (text : String)
    (d : IntentDecision) (ctx : List (String × String)) (dm : DMState)
    (sid : String)
    (hcur : pyTruthyOpt cur = true) (hdet : pyTruthyOpt det = true)
    (hdiff : pyLower (det.getD "") ≠ pyLower (cur.getD "")) :
    dlookup (topicShiftStage cur det text d ctx dm sid).2.2.activeFlows sid
        = none ∧
    (topicShiftStage cur det text d ctx dm sid).1.method
        = "topic_shift_correction" ∧
    dlookup (topicShiftStage cur det text d ctx dm sid).2.1 "product"
        = some (det.getD "") ∧
    (topicShiftStage cur det text d ctx dm sid).1.intent
      = (if pyInStr "bulk" (pyLower text) || pyInStr "volume" (pyLower text)
           then some "INFO_BULK"
         else if pyInStr "price" (pyLower text) ||
             pyInStr "pricing" (pyLower text) then some "INFO_PRICE"
         else if d.confidence < mkRat 6 10 then some "PRODUCT_INQUIRY"
         else d.intent) := by
  have hcond : (pyTruthyOpt cur && pyTruthyOpt det &&
      (pyLower (det.getD "") != pyLower (cur.getD ""))) = true := by
    rw [hcur, hdet]
    simpa using hdiff
  unfold topicShiftStage
  rw [hcond, if_pos rfl]
  dsimp only
  refine ⟨endFlow_deregisters _ _, ?_, dlookup_dset_self _ _ _, ?_⟩
  · split_ifs <;> rfl
  · split_ifs <;> rfl

/-- Witness for the topic-shift stage at a concrete turn: accumulated
"bearing", extracted "actuator", neutral text, low confidence. -/
theorem topic_shift_stage_rule_witness :
    dlookup (topicShiftStage (some "bearing") (some "actuator") "talk"
        ⟨some "HELP", mkRat 1 2, "fuzzy"⟩ [] rfqConfirmState
        "s1").2.2.activeFlows "s1" = none ∧
    (topicShiftStage (some "bearing") (some "actuator") "talk"
        ⟨some "HELP", mkRat 1 2, "fuzzy"⟩ [] rfqConfirmState "s1").1.method
      = "topic_shift_correction" ∧
    dlookup (topicShiftStage (some "bearing") (some "actuator") "talk"
        ⟨some "HELP", mkRat 1 2, "fuzzy"⟩ [] rfqConfirmState "s1").2.1
        "product" = some "actuator" ∧
    (topicShiftStage (some "bearing") (some "actuator") "talk"
        ⟨some "HELP", mkRat 1 2, "fuzzy"⟩ [] rfqConfirmState "s1").1.intent
      = some "PRODUCT_INQUIRY" := by
  have h := topic_shift_stage_rule (some "bearing") (some "actuator") "talk"
    ⟨some "HELP", mkRat 1 2, "fuzzy"⟩ [] rfqConfirmState "s1"
    (by decide) (by decide) (by decide)
  refine ⟨h.1, h.2.1, h.2.2.1, ?_⟩
  rw [h.2.2.2]
  decide

end B2BChat
